import Mathlib

/-!
Shallow embedding of `src/check_nuclear_events.py` from the
radiological-seismic-alert repository.

Numbers that Python holds as `int`/`float` are modelled as rationals `ℚ`
(all values flowing through the decision logic are decimal literals from
JSON or the CLI, and every operation performed on them is an order
comparison, which is exact on `ℚ`).  Python runtime exceptions that can
escape a function are modelled with `Except PyErr`.  Network effects are
modelled by passing the feed responses in as data, and the externally
observable effects of `main` (feed queries, notifier posts) are recorded
in an ordered trace.
-/

namespace RadSeis

/-- Constant `MAG_THRESHOLD = 1.0` (minimum magnitude), line 9. -/
def MAG_THRESHOLD : ℚ := 1

/-- Constant `DEPTH_THRESHOLD = 2.0` (maximum depth in km), line 10. -/
def DEPTH_THRESHOLD : ℚ := 2

/-- Constant `RADIATION_SPIKE_THRESHOLD_CPM = 125`, line 11. -/
def RADIATION_SPIKE_THRESHOLD_CPM : ℚ := 125

/-- Kinds of Python runtime exceptions that the embedded code can raise. -/
inductive PyErr
  | typeError
  | valueError
  | keyError
  | indexError
deriving DecidableEq, Repr

/-- A JSON scalar as it arrives from a decoded payload: a number, a
string, or JSON `null` (Python `None`). -/
inductive PyVal
  | num (q : ℚ)
  | str (s : String)
  | pynone
deriving DecidableEq, Repr

/-- Python `isinstance(v, (int, float))` for a JSON scalar. -/
def PyVal.isNumeric : PyVal → Bool
  | .num _ => true
  | _ => false

/-- Python comparison `a <= b` between two scalars: defined between two
numbers and between two strings, a `TypeError` otherwise (in particular
between a string such as `"Unknown"` and a number). -/
def pyLe : PyVal → PyVal → Except PyErr Bool
  | .num a, .num b => .ok (decide (a ≤ b))
  | .str a, .str b => .ok (decide (a ≤ b))
  | _, _ => .error .typeError

/-- Numeric value of a decimal digit character. -/
def digitVal (c : Char) : ℕ := c.toNat - 48

/-- Value of a list of decimal digit characters, most significant first. -/
def natOfDigits (cs : List Char) : ℕ := cs.foldl (fun a c => a * 10 + digitVal c) 0

/-- Parse a mantissa `digits [. digits]` prefix, returning its value and
the unconsumed remainder. -/
def parseMantissa (cs : List Char) : Option (ℚ × List Char) :=
  let p := cs.span Char.isDigit
  match p.2 with
  | '.' :: rest2 =>
      let pf := rest2.span Char.isDigit
      if p.1.isEmpty ∧ pf.1.isEmpty then none
      else
        some (mkRat (natOfDigits p.1 * 10 ^ pf.1.length + natOfDigits pf.1) (10 ^ pf.1.length),
              pf.2)
  | _ => if p.1.isEmpty then none else some (mkRat (natOfDigits p.1) 1, p.2)

/-- Parse an optional exponent suffix `e[±]digits`; `none` on anything
else left over. -/
def parseExponent : List Char → Option ℤ
  | [] => some 0
  | c :: rest =>
      if c = 'e' ∨ c = 'E' then
        match rest with
        | '-' :: ds => if ds ≠ [] ∧ ds.all Char.isDigit then some (-(natOfDigits ds : ℤ)) else none
        | '+' :: ds => if ds ≠ [] ∧ ds.all Char.isDigit then some (natOfDigits ds : ℤ) else none
        | ds => if ds ≠ [] ∧ ds.all Char.isDigit then some (natOfDigits ds : ℤ) else none
      else none

/-- Scale a rational by a signed power of ten (stated on the numerator
and denominator so that it evaluates by kernel reduction). -/
def scalePow10 (m : ℚ) (e : ℤ) : ℚ :=
  if 0 ≤ e then mkRat (m.num * (10 : ℤ) ^ e.toNat) m.den
  else mkRat m.num (m.den * 10 ^ (-e).toNat)

/-- Python builtin `float(s)` on a string, restricted to plain decimal
literals: optional surrounding whitespace, optional sign, decimal digits
with optional fractional part and optional exponent.  Strings outside
this fragment (`inf`/`nan`, embedded underscores) are modelled as
unparsable; `inf`/`nan` are not representable in `ℚ` and never occur in
the feeds or scenarios under consideration.  `none` models the
`ValueError` that `float` raises on an unparsable string. -/
def parsePyFloat (s : String) : Option ℚ :=
  let cs := ((s.toList.dropWhile Char.isWhitespace).reverse.dropWhile Char.isWhitespace).reverse
  let signed : Bool × List Char :=
    match cs with
    | '-' :: r => (true, r)
    | '+' :: r => (false, r)
    | _ => (false, cs)
  match parseMantissa signed.2 with
  | none => none
  | some (m, rest) =>
      match parseExponent rest with
      | none => none
      | some e => some (if signed.1 then -scalePow10 m e else scalePow10 m e)

/-- Python `float(v)` on a JSON scalar: numbers pass through, strings are
parsed (`ValueError` when unparsable), `None` raises `TypeError`. -/
def pyFloat : PyVal → Except PyErr ℚ
  | .num q => .ok q
  | .str s =>
      match parsePyFloat s with
      | some q => .ok q
      | none => .error .valueError
  | .pynone => .error .typeError

/-- One record of the Safecast `measurements` array, keeping the three
fields the code reads; each is `none` when the key is absent. -/
structure Measurement where
  value : Option PyVal
  unit : Option String
  captured_at : Option String
deriving DecidableEq, Repr

/-- The sort key `x.get("value", float("inf"))` used at line 129: the raw
`value` field when present, the float infinity when absent. -/
inductive MinKey
  | val (v : PyVal)
  | infKey
deriving DecidableEq, Repr

/-- The key of a measurement under `lambda x: x.get("value", float("inf"))`. -/
def measKey (m : Measurement) : MinKey :=
  match m.value with
  | some v => .val v
  | none => .infKey

/-- Python comparison `a < b` between two min-keys: number-vs-number
(infinity included) and string-vs-string compare; any mixed pair, or a
pair involving `None`, raises `TypeError`. -/
def keyLt : MinKey → MinKey → Except PyErr Bool
  | .val (.num a), .val (.num b) => .ok (decide (a < b))
  | .val (.num _), .infKey => .ok true
  | .infKey, .val (.num _) => .ok false
  | .infKey, .infKey => .ok false
  | .val (.str a), .val (.str b) => .ok (decide (a < b))
  | _, _ => .error .typeError

/-- The loop of Python `min(xs, key=...)`: keep the current minimum,
replace it when a later item has a strictly smaller key (so the first
minimum wins ties). -/
def minFold (cur : Measurement) : List Measurement → Except PyErr Measurement
  | [] => .ok cur
  | it :: rest =>
      match keyLt (measKey it) (measKey cur) with
      | .error e => .error e
      | .ok b => minFold (if b then it else cur) rest

/-- Python `min(xs, key=lambda x: x.get("value", float("inf")))`, line 129. -/
def pyMin : List Measurement → Except PyErr Measurement
  | [] => .error .valueError
  | x :: xs => minFold x xs

/-- The triple returned by a successful radiation lookup. -/
structure Sample where
  value : ℚ
  unit : String
  captured_at : String
deriving DecidableEq, Repr

/-- A response of the Safecast API as seen by
`get_nearest_radiation_sample`: a timeout, another request failure
(non-success HTTP status included, via `raise_for_status`), an
undecodable JSON payload, or a decoded payload whose `measurements`
field is absent/falsy (`ok none`) or a list (`ok (some ms)`). -/
inductive SafecastResponse
  | timeout
  | requestError
  | badJson
  | ok (measurements : Option (List Measurement))
deriving DecidableEq, Repr

/-- Embedding of `get_nearest_radiation_sample` (lines 113-143) applied
to the response the API gives for the queried coordinate.  Timeouts,
request failures and undecodable payloads are caught and become
`(None, None, None)`; a decoded payload is processed by lines 128-134,
whose `KeyError`/`ValueError`/`TypeError` raises are NOT caught by the
`except` clauses and escape. -/
def get_nearest_radiation_sample (resp : SafecastResponse) : Except PyErr (Option Sample) :=
  match resp with
  | .timeout => .ok none
  | .requestError => .ok none
  | .badJson => .ok none
  | .ok none => .ok none
  | .ok (some ms) =>
      if ms.isEmpty then .ok none
      else
        match pyMin ms with
        | .error e => .error e
        | .ok nearest =>
            match nearest.value with
            | none => .error .keyError
            | some v =>
                match pyFloat v with
                | .error e => .error e
                | .ok q =>
                    match nearest.captured_at with
                    | none => .error .keyError
                    | some ts => .ok (some ⟨q, nearest.unit.getD "unknown", ts⟩)

/-- The most-recent USGS event as the code reads it (lines 161-167):
the `properties.mag` field (`none` when the key is absent, which
`props.get("mag", "Unknown")` turns into the string `"Unknown"`; a JSON
`null` is `some .pynone`), the `geometry.coordinates` array (numbers, as
USGS serves `[lon, lat, depth]`, possibly truncated), and the epoch-ms
`properties.time` (read at line 167 only for display formatting, so it
is kept as a plain required field). -/
structure UsgsEvent where
  mag : Option PyVal
  coordinates : List ℚ
  time : ℤ
deriving DecidableEq, Repr

/-- The two decision outcomes. -/
inductive DecisionKind
  | ALERT
  | NO_ALERT
deriving DecidableEq, Repr

/-- The seismic evidence carried by a live alert (the values interpolated
into the alert post at line 176). -/
structure SeismicEvidence where
  magnitude : PyVal
  depth : PyVal
  lat : ℚ
  lon : ℚ
deriving DecidableEq, Repr

/-- The decision produced by one run: its kind, plus the seismic event
and radiation sample attached as evidence (only a live ALERT carries
evidence; every NO_ALERT, and a simulated ALERT, carries none). -/
structure Decision where
  kind : DecisionKind
  seismic : Option SeismicEvidence
  radiation : Option Sample
deriving DecidableEq, Repr

/-- The NO_ALERT decision with no evidence. -/
def noAlert : Decision := ⟨.NO_ALERT, none, none⟩

/-- Externally observable effects of one run of `main`, in order:
posting the simulation message (line 149), evaluating the simulated
threshold comparison (line 150), querying the USGS seismic feed
(line 156), querying the Safecast radiation feed (line 170), posting the
alert message (line 176). -/
inductive Action
  | publishSim
  | simCompare
  | querySeismic
  | queryRadiation
  | publishAlert
deriving DecidableEq, Repr

/-- The result of one run of `main`: the ordered effect trace and either
a decision or the Python exception that escaped. -/
structure MainResult where
  trace : List Action
  outcome : Except PyErr Decision

/-- Python truthiness of an optional CLI string argument: `None` and the
empty string are falsy, every other string is truthy. -/
def pyTruthy : Option String → Bool
  | none => false
  | some s => !s.isEmpty

/-- The compound gate of line 171,
`isinstance(magnitude, (int, float)) and magnitude >= MAG_THRESHOLD and
depth <= DEPTH_THRESHOLD`, under Python evaluation order: the two
comparisons are short-circuited left to right, so the depth comparison
(which raises `TypeError` when `depth` is the string `"Unknown"`) is
reached only when the magnitude is numeric and at least the minimum. -/
def gateCheck (magnitude depth : PyVal) : Except PyErr Bool :=
  if magnitude.isNumeric then
    match pyLe (.num MAG_THRESHOLD) magnitude with
    | .error e => .error e
    | .ok false => .ok false
    | .ok true => pyLe depth (.num DEPTH_THRESHOLD)
  else .ok false

/-- The condition of line 172,
`radiation_level and radiation_level > RADIATION_SPIKE_THRESHOLD_CPM`:
`None` and a zero reading are falsy, otherwise the reading must be
strictly above the threshold. -/
def radiationSpike : Option Sample → Bool
  | none => false
  | some s => decide (s.value ≠ 0) && decide (RADIATION_SPIKE_THRESHOLD_CPM < s.value)

/-- The live branch of `main` (lines 156-179).  `events` is what
`get_usgs_events` returned (it catches its own request failures and
returns `[]` for them), `radResp` is the Safecast response for the
event coordinate.  Mirrors the source faithfully: the depth falls back
to the string `"Unknown"` when the coordinates array has no third entry
(line 165), reading `geo[1]` raises `IndexError` when the array is
shorter than two (line 166), the radiation feed is queried at line 170
BEFORE the magnitude/depth gate at line 171, the gate compares with
Python semantics (so a string depth raises `TypeError`), and the alert
branch requires the radiation level truthy (nonzero) and strictly above
the threshold. -/
def liveRun (events : List UsgsEvent) (radResp : SafecastResponse) : MainResult :=
  match events with
  | [] => ⟨[.querySeismic], .ok noAlert⟩
  | ev :: _ =>
      let magnitude := ev.mag.getD (.str "Unknown")
      let depth : PyVal :=
        if h : 2 < ev.coordinates.length then .num (ev.coordinates.get ⟨2, h⟩)
        else .str "Unknown"
      if h2 : 1 < ev.coordinates.length then
        let lat := ev.coordinates.get ⟨1, h2⟩
        let lon := ev.coordinates.get ⟨0, by omega⟩
        match get_nearest_radiation_sample radResp with
        | .error e => ⟨[.querySeismic, .queryRadiation], .error e⟩
        | .ok radiation =>
            match gateCheck magnitude depth with
            | .error e => ⟨[.querySeismic, .queryRadiation], .error e⟩
            | .ok true =>
                if radiationSpike radiation then
                  ⟨[.querySeismic, .queryRadiation, .publishAlert],
                   .ok ⟨.ALERT, some ⟨magnitude, depth, lat, lon⟩, radiation⟩⟩
                else ⟨[.querySeismic, .queryRadiation], .ok noAlert⟩
            | .ok false => ⟨[.querySeismic, .queryRadiation], .ok noAlert⟩
      else ⟨[.querySeismic], .error .indexError⟩

/-- Embedding of `main` (lines 146-179).  The simulation branch is taken
when all three CLI strings are truthy (line 147); it posts the
simulation message first (line 149) and then compares
`float(simulate_radiation)` against the threshold (line 150), raising
`ValueError` past the already-performed post when the string is
unparsable.  Otherwise the live branch runs.  The notifier posts are
modelled as trace actions (the notifier is an external collaborator). -/
def main (simulate_lat simulate_lon simulate_radiation : Option String)
    (events : List UsgsEvent) (radResp : SafecastResponse) : MainResult :=
  if pyTruthy simulate_lat && pyTruthy simulate_lon && pyTruthy simulate_radiation then
    match parsePyFloat (simulate_radiation.getD "") with
    | none => ⟨[.publishSim], .error .valueError⟩
    | some v =>
        ⟨[.publishSim, .simCompare],
         .ok ⟨if RADIATION_SPIKE_THRESHOLD_CPM < v then .ALERT else .NO_ALERT, none, none⟩⟩
  else liveRun events radResp

/-- Input for C1: a most-recent seismic event whose magnitude 1.5 is
numeric and above the minimum, but whose `geometry.coordinates` array
has only two entries, so `depth` falls back to the string `"Unknown"`
(line 165). -/
def evC1 : UsgsEvent := ⟨some (.num (mkRat 3 2)), [20, 10], 0⟩

/-- Radiation response for C1: one well-formed sample of 200 CPM, above
the threshold. -/
def respC1 : SafecastResponse := .ok (some [⟨some (.num 200), some "cpm", some "2024"⟩])

/-- Input for the C3 counterexample: magnitude 0.9 fails the minimum
magnitude check (Scenario C). -/
def evC3 : UsgsEvent := ⟨some (.num (mkRat 9 10)), [1, 2, 1], 0⟩

/-- Radiation response for the C3 counterexample: a 500 CPM sample. -/
def respC3 : SafecastResponse := .ok (some [⟨some (.num 500), some "cpm", some "2024"⟩])

/-- Input for C4: a decoded payload whose single measurement has a
numeric `value` but no `captured_at` key. -/
def respC4 : SafecastResponse := .ok (some [⟨some (.num 5), some "cpm", none⟩])

/-- Event for the C2 witness: Scenario B, magnitude 1.0 and depth 2.0
(both exactly at their bounds). -/
def evC2 : UsgsEvent := ⟨some (.num 1), [5, 6, 2], 0⟩

/-- Radiation response for the C2 witness: one sample of 125.1 CPM. -/
def respC2 : SafecastResponse := .ok (some [⟨some (.num (mkRat 1251 10)), some "cpm", some "t"⟩])

/-- Event for the C5 witness: the magnitude key is absent, so the code
sees the string `"Unknown"`. -/
def evC5 : UsgsEvent := ⟨none, [1, 2, 3], 0⟩

/-- Measurements for the C8 witness: the second record has the smaller
value 50. -/
def msC8 : List Measurement :=
  [⟨some (.num 100), some "cpm", some "t1"⟩, ⟨some (.num 50), some "cpm", some "t2"⟩]

theorem minFold_spec (l : List Measurement) (cur : Measurement)
    (hcur : ∃ q : ℚ, cur.value = some (.num q))
    (hl : ∀ m ∈ l, ∃ q : ℚ, m.value = some (.num q)) :
    ∃ r : Measurement, minFold cur l = .ok r ∧ (r = cur ∨ r ∈ l) ∧
      ∃ qr : ℚ, r.value = some (.num qr) ∧
        (∀ q : ℚ, cur.value = some (.num q) → qr ≤ q) ∧
        (∀ m ∈ l, ∀ q : ℚ, m.value = some (.num q) → qr ≤ q) := by
  induction l generalizing cur with
  | nil =>
      obtain ⟨qc, hqc⟩ := hcur
      refine ⟨cur, rfl, Or.inl rfl, qc, hqc, ?_, ?_⟩
      · intro q hq
        rw [hqc] at hq
        simp only [Option.some.injEq, PyVal.num.injEq] at hq
        exact le_of_eq hq
      · intro m hm
        exact absurd hm (List.not_mem_nil m)
  | cons it rest ih =>
      obtain ⟨qc, hqc⟩ := hcur
      obtain ⟨qi, hqi⟩ := hl it (List.mem_cons_self it rest)
      have hk : keyLt (measKey it) (measKey cur) = .ok (decide (qi < qc)) := by
        simp [measKey, hqi, hqc, keyLt]
      have hstep : minFold cur (it :: rest) =
          minFold (if decide (qi < qc) then it else cur) rest := by
        rw [minFold, hk]
      have hnewval : ∃ q : ℚ, (if decide (qi < qc) then it else cur).value = some (.num q) := by
        by_cases hlt : qi < qc
        · simp [hlt, hqi]
        · simp [hlt, hqc]
      obtain ⟨r, hr, hmem, qr, hqr, hbase, hrest⟩ :=
        ih (if decide (qi < qc) then it else cur) hnewval
          (fun m hm => hl m (List.mem_cons_of_mem it hm))
      refine ⟨r, hstep ▸ hr, ?_, qr, hqr, ?_, ?_⟩
      · rcases hmem with hmem | hmem
        · by_cases hlt : qi < qc
          · simp [hlt] at hmem
            exact Or.inr (hmem ▸ List.mem_cons_self it rest)
          · simp [hlt] at hmem
            exact Or.inl hmem
        · exact Or.inr (List.mem_cons_of_mem it hmem)
      · intro q hq
        rw [hqc] at hq
        simp only [Option.some.injEq, PyVal.num.injEq] at hq
        rw [← hq]
        by_cases hlt : qi < qc
        · have h1 : qr ≤ qi := by
            have := hbase qi
            simp [hlt, hqi] at this
            exact this
          exact le_trans h1 (le_of_lt hlt)
        · have := hbase qc
          simp [hlt, hqc] at this
          exact this
      · intro m hm q hq
        rcases List.mem_cons.mp hm with hm | hm
        · subst hm
          rw [hqi] at hq
          simp only [Option.some.injEq, PyVal.num.injEq] at hq
          rw [← hq]
          by_cases hlt : qi < qc
          · have := hbase qi
            simp [hlt, hqi] at this
            exact this
          · have h1 : qr ≤ qc := by
              have := hbase qc
              simp [hlt, hqc] at this
              exact this
            exact le_trans h1 (le_of_not_lt hlt)
        · exact hrest m hm q hq

theorem liveRun_trace_shape (events : List UsgsEvent) (resp : SafecastResponse) :
    (liveRun events resp).trace = [.querySeismic] ∨
    (liveRun events resp).trace = [.querySeismic, .queryRadiation] ∨
    (liveRun events resp).trace = [.querySeismic, .queryRadiation, .publishAlert] := by
  rcases events with _ | ⟨ev, rest⟩
  · exact Or.inl rfl
  · rw [liveRun]
    repeat' split
    all_goals simp

theorem liveRun_no_publishSim (events : List UsgsEvent) (resp : SafecastResponse) :
    Action.publishSim ∉ (liveRun events resp).trace := by
  rcases liveRun_trace_shape events resp with h | h | h <;> rw [h] <;> decide

theorem main_live (events : List UsgsEvent) (resp : SafecastResponse) :
    main none none none events resp = liveRun events resp := rfl

theorem gateCheck_not_numeric (magnitude depth : PyVal) (h : magnitude.isNumeric = false) :
    gateCheck magnitude depth = .ok false := by
  simp [gateCheck, h]

theorem gateCheck_low_mag (m : ℚ) (depth : PyVal) (h : m < MAG_THRESHOLD) :
    gateCheck (.num m) depth = .ok false := by
  simp [gateCheck, PyVal.isNumeric, pyLe, not_le.mpr h]

theorem gateCheck_deep (magnitude : PyVal) (d : ℚ) (h : DEPTH_THRESHOLD < d) :
    gateCheck magnitude (.num d) = .ok false := by
  rcases magnitude with q | s | _
  · by_cases hge : MAG_THRESHOLD ≤ q
    · simp [gateCheck, PyVal.isNumeric, pyLe, hge, not_le.mpr h]
    · simp [gateCheck, PyVal.isNumeric, pyLe, hge]
  · simp [gateCheck, PyVal.isNumeric]
  · simp [gateCheck, PyVal.isNumeric]

theorem gateCheck_pass (m d : ℚ) (hm : MAG_THRESHOLD ≤ m) (hd : d ≤ DEPTH_THRESHOLD) :
    gateCheck (.num m) (.num d) = .ok true := by
  simp [gateCheck, PyVal.isNumeric, pyLe, hm, hd]

theorem liveRun_gate (ev : UsgsEvent) (rest : List UsgsEvent) (resp : SafecastResponse)
    (hlen : 1 < ev.coordinates.length)
    (r : Option Sample) (hrad : get_nearest_radiation_sample resp = .ok r) :
    liveRun (ev :: rest) resp =
      match gateCheck (ev.mag.getD (.str "Unknown"))
          (if h : 2 < ev.coordinates.length then .num (ev.coordinates.get ⟨2, h⟩)
           else .str "Unknown") with
      | .error e => ⟨[.querySeismic, .queryRadiation], .error e⟩
      | .ok true =>
          if radiationSpike r then
            ⟨[.querySeismic, .queryRadiation, .publishAlert],
             .ok ⟨.ALERT,
                  some ⟨ev.mag.getD (.str "Unknown"),
                        (if h : 2 < ev.coordinates.length
                         then .num (ev.coordinates.get ⟨2, h⟩) else .str "Unknown"),
                        ev.coordinates.get ⟨1, hlen⟩,
                        ev.coordinates.get ⟨0, by omega⟩⟩, r⟩⟩
          else ⟨[.querySeismic, .queryRadiation], .ok noAlert⟩
      | .ok false => ⟨[.querySeismic, .queryRadiation], .ok noAlert⟩ := by
  simp only [liveRun]
  rw [dif_pos hlen, hrad]

/-- C1: the spec requires depth-absent events to fail the depth check
and yield NO_ALERT, but the code compares the sentinel string
`"Unknown"` against the numeric threshold at line 171 and raises
`TypeError` instead of producing any decision. -/
theorem C1_depth_absent_raises :
    (main none none none [evC1] respC1).outcome = .error .typeError := rfl

/-- C3 counterexample: with the most recent event failing the magnitude
check, the decision is NO_ALERT but the radiation lookup IS queried
(line 170 runs before the gate of line 171), contradicting the claim
that no radiation query is issued when the magnitude check fails. -/
theorem C3_cex :
    (main none none none [evC3] respC3).outcome = .ok noAlert ∧
    Action.queryRadiation ∈ (main none none none [evC3] respC3).trace := by
  refine ⟨rfl, ?_⟩
  show Action.queryRadiation ∈ [Action.querySeismic, Action.queryRadiation]
  decide

/-- C3 amended: when the seismic feed returns no events, no radiation
query is issued and the decision is NO_ALERT; but when an event (with
latitude/longitude present) is returned, the radiation lookup is
queried unconditionally, before the magnitude/depth checks, so a
failing gate does not prevent the query. -/
theorem C3_amended_queries (events : List UsgsEvent) (resp : SafecastResponse) :
    (events = [] →
       (main none none none events resp).trace = [.querySeismic] ∧
       (main none none none events resp).outcome = .ok noAlert) ∧
    (∀ (ev : UsgsEvent) (rest : List UsgsEvent), events = ev :: rest →
       1 < ev.coordinates.length →
       Action.queryRadiation ∈ (main none none none events resp).trace) := by
  constructor
  · rintro rfl
    exact ⟨rfl, rfl⟩
  · rintro ev rest rfl hlen
    rw [main_live]
    simp only [liveRun]
    rw [dif_pos hlen]
    repeat' split
    all_goals simp

/-- Witness for the amended C3 claim at a concrete event. -/
theorem C3_amended_queries_witness :
    Action.queryRadiation ∈ (main none none none [evC3] respC3).trace :=
  (C3_amended_queries [evC3] respC3).2 evC3 [] rfl (by decide)

/-- C4 counterexample: on a decoded payload whose selected measurement
record lacks the `captured_at` key, `get_nearest_radiation_sample`
raises `KeyError` (line 132 is outside every `except` clause that the
function declares), contradicting the claim that it never raises. -/
theorem C4_cex : get_nearest_radiation_sample respC4 = .error .keyError := rfl

/-- C4 amended: the adapter absorbs I/O failures (timeout, request
error/HTTP error) and undecodable payloads, returning the absence
value; and it returns without raising on any decoded payload whose
measurements all carry a numeric `value` and a `captured_at` field.
(Records lacking those fields can make it raise, as the counterexample
shows.) -/
theorem C4_amended_absorbs (resp : SafecastResponse) :
    ((resp = .timeout ∨ resp = .requestError ∨ resp = .badJson ∨ resp = .ok none) →
       get_nearest_radiation_sample resp = .ok none) ∧
    (∀ ms : List Measurement, resp = .ok (some ms) →
       (∀ m ∈ ms, (∃ q : ℚ, m.value = some (.num q)) ∧ m.captured_at.isSome) →
       ∃ r : Option Sample, get_nearest_radiation_sample resp = .ok r) := by
  constructor
  · rintro (rfl | rfl | rfl | rfl) <;> rfl
  · rintro ms rfl hms
    rcases ms with _ | ⟨x, xs⟩
    · exact ⟨none, rfl⟩
    · obtain ⟨r, hr, hmem, qr, hqr, -, -⟩ :=
        minFold_spec xs x (hms x (List.mem_cons_self x xs)).1
          (fun m hm => (hms m (List.mem_cons_of_mem x hm)).1)
      have hcap : r.captured_at.isSome := by
        rcases hmem with rfl | hm
        · exact (hms r (List.mem_cons_self r xs)).2
        · exact (hms r (List.mem_cons_of_mem x hm)).2
      obtain ⟨ts, hts⟩ := Option.isSome_iff_exists.mp hcap
      refine ⟨some ⟨qr, r.unit.getD "unknown", ts⟩, ?_⟩
      simp only [get_nearest_radiation_sample, List.isEmpty_cons, Bool.false_eq_true,
        if_false]
      rw [show pyMin (x :: xs) = minFold x xs from rfl, hr]
      simp [hqr, hts, pyFloat]

/-- Witness for the amended C4 claim: both conjuncts applied at concrete
responses. -/
theorem C4_amended_absorbs_witness :
    get_nearest_radiation_sample .timeout = .ok none ∧
    ∃ r : Option Sample,
      get_nearest_radiation_sample (.ok (some [⟨some (.num 5), some "cpm", some "t"⟩])) =
        .ok r :=
  ⟨(C4_amended_absorbs .timeout).1 (Or.inl rfl),
   (C4_amended_absorbs (.ok (some [⟨some (.num 5), some "cpm", some "t"⟩]))).2
     [⟨some (.num 5), some "cpm", some "t"⟩] rfl
     (by intro m hm; simp at hm; subst hm; exact ⟨⟨5, rfl⟩, rfl⟩)⟩

/-- C2: for an event passing both gates (numeric magnitude at least the
minimum, numeric depth at most the maximum), the decision is NO_ALERT
when the lookup yields no sample (failures included, since the adapter
maps them to absence), NO_ALERT when the sample equals the threshold
exactly, and ALERT with the event and sample as evidence when the
sample is strictly above the threshold. -/
theorem C2_radiation_gate (ev : UsgsEvent) (rest : List UsgsEvent) (resp : SafecastResponse)
    (m : ℚ) (hm : ev.mag = some (.num m)) (hmge : MAG_THRESHOLD ≤ m)
    (hlen : 2 < ev.coordinates.length)
    (hdle : ev.coordinates.get ⟨2, hlen⟩ ≤ DEPTH_THRESHOLD) :
    (get_nearest_radiation_sample resp = .ok none →
       (main none none none (ev :: rest) resp).outcome = .ok noAlert) ∧
    (∀ s : Sample, get_nearest_radiation_sample resp = .ok (some s) →
       s.value = RADIATION_SPIKE_THRESHOLD_CPM →
       (main none none none (ev :: rest) resp).outcome = .ok noAlert) ∧
    (∀ s : Sample, get_nearest_radiation_sample resp = .ok (some s) →
       RADIATION_SPIKE_THRESHOLD_CPM < s.value →
       (main none none none (ev :: rest) resp).outcome =
         .ok ⟨.ALERT,
              some ⟨.num m, .num (ev.coordinates.get ⟨2, hlen⟩),
                    ev.coordinates.get ⟨1, by omega⟩, ev.coordinates.get ⟨0, by omega⟩⟩,
              some s⟩) := by
  have hlen1 : 1 < ev.coordinates.length := by omega
  have hmag : ev.mag.getD (.str "Unknown") = .num m := by rw [hm]; rfl
  have hdepth : (if h : 2 < ev.coordinates.length
      then (.num (ev.coordinates.get ⟨2, h⟩) : PyVal) else .str "Unknown") =
      .num (ev.coordinates.get ⟨2, hlen⟩) := dif_pos hlen
  refine ⟨?_, ?_, ?_⟩
  · intro hrad
    rw [main_live, liveRun_gate ev rest resp hlen1 none hrad, hmag, hdepth,
        gateCheck_pass m _ hmge hdle]
    rfl
  · intro s hrad hveq
    have hspike : radiationSpike (some s) = false := by
      simp [radiationSpike, hveq]
    rw [main_live, liveRun_gate ev rest resp hlen1 (some s) hrad, hmag, hdepth,
        gateCheck_pass m _ hmge hdle]
    simp [hspike]
  · intro s hrad hvgt
    have hpos : (0 : ℚ) < s.value :=
      lt_trans (by norm_num [RADIATION_SPIKE_THRESHOLD_CPM]) hvgt
    have hspike : radiationSpike (some s) = true := by
      simp [radiationSpike, ne_of_gt hpos, hvgt]
    rw [main_live, liveRun_gate ev rest resp hlen1 (some s) hrad, hmag, hdepth,
        gateCheck_pass m _ hmge hdle]
    simp [hspike]

/-- Witness for C2 at Scenario B: magnitude 1.0, depth 2.0, radiation
125.1 gives ALERT with the event and sample as evidence. -/
theorem C2_radiation_gate_witness :
    (main none none none [evC2] respC2).outcome =
      .ok ⟨.ALERT, some ⟨.num 1, .num 2, 6, 5⟩, some ⟨mkRat 1251 10, "cpm", "t"⟩⟩ :=
  (C2_radiation_gate evC2 [] respC2 1 rfl (le_refl 1) (by decide) (by decide)).2.2
    ⟨mkRat 1251 10, "cpm", "t"⟩ rfl (by decide)

/-- C5: given any radiation lookup result, a non-numeric magnitude, a
numeric magnitude strictly below the minimum, or a numeric depth
strictly above the maximum each yield NO_ALERT; and the two boundary
values (magnitude exactly the minimum, depth exactly the maximum) pass
their checks, so with a sample strictly above the radiation threshold
the decision is ALERT. -/
theorem C5_gates (ev : UsgsEvent) (rest : List UsgsEvent) (resp : SafecastResponse)
    (r : Option Sample) (hrad : get_nearest_radiation_sample resp = .ok r)
    (hlen1 : 1 < ev.coordinates.length) :
    ((ev.mag.getD (.str "Unknown")).isNumeric = false →
       (main none none none (ev :: rest) resp).outcome = .ok noAlert) ∧
    (∀ m : ℚ, ev.mag = some (.num m) → m < MAG_THRESHOLD →
       (main none none none (ev :: rest) resp).outcome = .ok noAlert) ∧
    (∀ hlen : 2 < ev.coordinates.length, DEPTH_THRESHOLD < ev.coordinates.get ⟨2, hlen⟩ →
       (main none none none (ev :: rest) resp).outcome = .ok noAlert) ∧
    (ev.mag = some (.num MAG_THRESHOLD) →
       ∀ hlen : 2 < ev.coordinates.length,
         ev.coordinates.get ⟨2, hlen⟩ = DEPTH_THRESHOLD →
         ∀ s : Sample, r = some s → RADIATION_SPIKE_THRESHOLD_CPM < s.value →
         ∃ dec : Decision, (main none none none (ev :: rest) resp).outcome = .ok dec ∧
           dec.kind = .ALERT) := by
  refine ⟨?_, ?_, ?_, ?_⟩
  · intro hnn
    rw [main_live, liveRun_gate ev rest resp hlen1 r hrad,
        gateCheck_not_numeric _ _ hnn]
  · intro m hm hlt
    have hmag : ev.mag.getD (.str "Unknown") = .num m := by rw [hm]; rfl
    rw [main_live, liveRun_gate ev rest resp hlen1 r hrad, hmag,
        gateCheck_low_mag m _ hlt]
  · intro hlen hdeep
    have hdepth : (if h : 2 < ev.coordinates.length
        then (.num (ev.coordinates.get ⟨2, h⟩) : PyVal) else .str "Unknown") =
        .num (ev.coordinates.get ⟨2, hlen⟩) := dif_pos hlen
    rw [main_live, liveRun_gate ev rest resp hlen1 r hrad, hdepth,
        gateCheck_deep _ _ hdeep]
  · intro hm hlen hdeq s hs hvgt
    subst hs
    have hmag : ev.mag.getD (.str "Unknown") = .num MAG_THRESHOLD := by rw [hm]; rfl
    have hdepth : (if h : 2 < ev.coordinates.length
        then (.num (ev.coordinates.get ⟨2, h⟩) : PyVal) else .str "Unknown") =
        .num DEPTH_THRESHOLD := by rw [dif_pos hlen, hdeq]
    have hpos : (0 : ℚ) < s.value :=
      lt_trans (by norm_num [RADIATION_SPIKE_THRESHOLD_CPM]) hvgt
    have hspike : radiationSpike (some s) = true := by
      simp [radiationSpike, ne_of_gt hpos, hvgt]
    rw [main_live, liveRun_gate ev rest resp hlen1 (some s) hrad, hmag, hdepth,
        gateCheck_pass MAG_THRESHOLD DEPTH_THRESHOLD (le_refl _) (le_refl _)]
    simp only [hspike, if_true]
    exact ⟨_, rfl, rfl⟩

/-- Witness for C5: an event with no magnitude gives NO_ALERT (first
conjunct, applied with the timeout response whose lookup result is
absence). -/
theorem C5_gates_witness :
    (main none none none [evC5] .timeout).outcome = .ok noAlert :=
  (C5_gates evC5 [] .timeout none rfl (by decide)).1 rfl

theorem pyTruthy_iff (o : Option String) :
    pyTruthy o = true ↔ ∃ s, o = some s ∧ s ≠ "" := by
  cases o with
  | none => simp [pyTruthy]
  | some s =>
      simp only [pyTruthy, Bool.not_eq_true', Option.some.injEq, ne_eq, exists_eq_left']
      rw [Bool.eq_false_iff]
      exact not_congr (String.isEmpty_iff s)

theorem pyTruthy_some (s : String) (h : s ≠ "") : pyTruthy (some s) = true :=
  (pyTruthy_iff (some s)).mpr ⟨s, rfl, h⟩

/-- C6 counterexample: with all three simulation inputs present (the
latitude being the empty string), the empty string is falsy at
line 147, so the run falls through to live mode: no simulation message
is published and the seismic feed is queried — refuting "simulation
mode is entered if and only if all three simulated inputs are
present". -/
theorem C6_cex :
    ((some "" : Option String).isSome = true ∧ (some "1" : Option String).isSome = true ∧
      (some "1" : Option String).isSome = true) ∧
    Action.publishSim ∉ (main (some "") (some "1") (some "1") [] .timeout).trace ∧
    Action.querySeismic ∈ (main (some "") (some "1") (some "1") [] .timeout).trace := by
  refine ⟨⟨rfl, rfl, rfl⟩, ?_, ?_⟩
  · show Action.publishSim ∉ [Action.querySeismic]
    decide
  · show Action.querySeismic ∈ [Action.querySeismic]
    decide

/-- C6 amended: simulation mode (observable as the simulation post
being emitted) is entered if and only if all three simulated inputs are
present AND non-empty; any other combination falls through to live mode
rather than erroring; and whenever simulation mode is entered, neither
the seismic feed nor the radiation feed is queried. -/
theorem C6_sim_entry (la lo ra : Option String) (events : List UsgsEvent)
    (resp : SafecastResponse) :
    (Action.publishSim ∈ (main la lo ra events resp).trace ↔
       ((∃ s, la = some s ∧ s ≠ "") ∧ (∃ s, lo = some s ∧ s ≠ "") ∧
        (∃ s, ra = some s ∧ s ≠ ""))) ∧
    (Action.publishSim ∈ (main la lo ra events resp).trace →
       Action.querySeismic ∉ (main la lo ra events resp).trace ∧
       Action.queryRadiation ∉ (main la lo ra events resp).trace) := by
  by_cases hc : (pyTruthy la && pyTruthy lo && pyTruthy ra) = true
  · have hsplit := hc
    rw [Bool.and_eq_true, Bool.and_eq_true] at hsplit
    have hmain : main la lo ra events resp =
        match parsePyFloat (ra.getD "") with
        | none => ⟨[.publishSim], .error .valueError⟩
        | some v =>
            ⟨[.publishSim, .simCompare],
             .ok ⟨if RADIATION_SPIKE_THRESHOLD_CPM < v then .ALERT else .NO_ALERT,
                  none, none⟩⟩ := by
      rw [main, if_pos hc]
    constructor
    · constructor
      · intro _
        exact ⟨(pyTruthy_iff la).mp hsplit.1.1, (pyTruthy_iff lo).mp hsplit.1.2,
               (pyTruthy_iff ra).mp hsplit.2⟩
      · intro _
        rw [hmain]
        cases parsePyFloat (ra.getD "") <;> simp
    · intro _
      rw [hmain]
      cases parsePyFloat (ra.getD "") <;> exact ⟨by simp, by simp⟩
  · have hmain : main la lo ra events resp = liveRun events resp := by
      rw [main, if_neg hc]
    constructor
    · constructor
      · intro hmem
        rw [hmain] at hmem
        exact absurd hmem (liveRun_no_publishSim events resp)
      · rintro ⟨h1, h2, h3⟩
        exact absurd (by
          simp [Bool.and_eq_true, (pyTruthy_iff la).mpr h1, (pyTruthy_iff lo).mpr h2,
            (pyTruthy_iff ra).mpr h3]) hc
    · intro hmem
      rw [hmain] at hmem
      exact absurd hmem (liveRun_no_publishSim events resp)

/-- Witness for the amended C6 claim: with all three inputs non-empty,
simulation mode is entered and the seismic feed is not queried. -/
theorem C6_sim_entry_witness :
    Action.querySeismic ∉ (main (some "1") (some "2") (some "130") [] .timeout).trace :=
  ((C6_sim_entry (some "1") (some "2") (some "130") [] .timeout).2
    ((C6_sim_entry (some "1") (some "2") (some "130") [] .timeout).1.mpr
      ⟨⟨"1", rfl, by decide⟩, ⟨"2", rfl, by decide⟩, ⟨"130", rfl, by decide⟩⟩)).1

/-- C7: in simulation mode (all three inputs non-empty) with a parsable
simulated radiation value, the decision is ALERT exactly when the value
is strictly above the threshold, and it carries no seismic or radiation
evidence; no magnitude or depth check is involved. -/
theorem C7_sim_threshold (la lo ra : String) (hla : la ≠ "") (hlo : lo ≠ "") (hra : ra ≠ "")
    (v : ℚ) (hv : parsePyFloat ra = some v)
    (events : List UsgsEvent) (resp : SafecastResponse) :
    (main (some la) (some lo) (some ra) events resp).outcome =
      .ok ⟨if RADIATION_SPIKE_THRESHOLD_CPM < v then .ALERT else .NO_ALERT, none, none⟩ := by
  have hc : (pyTruthy (some la) && pyTruthy (some lo) && pyTruthy (some ra)) = true := by
    rw [pyTruthy_some la hla, pyTruthy_some lo hlo, pyTruthy_some ra hra]
    rfl
  rw [main, if_pos hc]
  simp only [Option.getD_some]
  rw [hv]

/-- Witness for C7 at Scenario E: simulated radiation 130 gives ALERT. -/
theorem C7_sim_threshold_witness :
    (main (some "1") (some "2") (some "130") [] .timeout).outcome =
      .ok ⟨.ALERT, none, none⟩ := by
  have h := C7_sim_threshold "1" "2" "130" (by decide) (by decide) (by decide)
    (mkRat 130 1) (by decide) [] .timeout
  rw [h, if_pos (by decide)]

/-- C8: for a decoded payload with a non-empty measurement list whose
records all carry numeric values and capture timestamps, the sample the
adapter returns is one of the record values, and it is the minimum
value among all returned measurements (the value, not any geographic
distance, is the sort key). -/
theorem C8_min_value (ms : List Measurement) (hne : ms ≠ [])
    (hv : ∀ m ∈ ms, ∃ q : ℚ, m.value = some (.num q))
    (hc : ∀ m ∈ ms, m.captured_at.isSome) :
    ∃ s : Sample, get_nearest_radiation_sample (.ok (some ms)) = .ok (some s) ∧
      (∃ m ∈ ms, m.value = some (.num s.value)) ∧
      ∀ m ∈ ms, ∀ q : ℚ, m.value = some (.num q) → s.value ≤ q := by
  rcases ms with _ | ⟨x, xs⟩
  · exact absurd rfl hne
  · obtain ⟨r, hr, hmem, qr, hqr, hbase, hrest⟩ :=
      minFold_spec xs x (hv x (List.mem_cons_self x xs))
        (fun m hm => hv m (List.mem_cons_of_mem x hm))
    have hcap : r.captured_at.isSome := by
      rcases hmem with rfl | hm
      · exact hc r (List.mem_cons_self r xs)
      · exact hc r (List.mem_cons_of_mem x hm)
    obtain ⟨ts, hts⟩ := Option.isSome_iff_exists.mp hcap
    refine ⟨⟨qr, r.unit.getD "unknown", ts⟩, ?_, ?_, ?_⟩
    · simp only [get_nearest_radiation_sample, List.isEmpty_cons, Bool.false_eq_true,
        if_false]
      rw [show pyMin (x :: xs) = minFold x xs from rfl, hr]
      simp [hqr, hts, pyFloat]
    · refine ⟨r, ?_, hqr⟩
      rcases hmem with rfl | hm
      · exact List.mem_cons_self r xs
      · exact List.mem_cons_of_mem x hm
    · intro m hm q hq
      rcases List.mem_cons.mp hm with rfl | hm2
      · exact hbase q hq
      · exact hrest m hm2 q hq

/-- Witness for C8 at a concrete two-record payload. -/
theorem C8_min_value_witness :
    ∃ s : Sample, get_nearest_radiation_sample (.ok (some msC8)) = .ok (some s) ∧
      (∃ m ∈ msC8, m.value = some (.num s.value)) ∧
      ∀ m ∈ msC8, ∀ q : ℚ, m.value = some (.num q) → s.value ≤ q :=
  C8_min_value msC8 (by decide)
    (by
      intro m hm
      simp only [msC8, List.mem_cons, List.not_mem_nil, or_false] at hm
      rcases hm with rfl | rfl
      · exact ⟨100, rfl⟩
      · exact ⟨50, rfl⟩)
    (by
      intro m hm
      simp only [msC8, List.mem_cons, List.not_mem_nil, or_false] at hm
      rcases hm with rfl | rfl <;> rfl)

/-- C9: in simulation mode, the simulation post is the first observable
effect of the run — it precedes the threshold comparison and happens
whatever the simulated value is (above the threshold, below it, or not
even parsable), so NO_ALERT simulations publish exactly like ALERT
simulations. -/
theorem C9_sim_publishes_first (la lo ra : String) (hla : la ≠ "") (hlo : lo ≠ "")
    (hra : ra ≠ "") (events : List UsgsEvent) (resp : SafecastResponse) :
    (main (some la) (some lo) (some ra) events resp).trace.head? = some .publishSim := by
  have hc : (pyTruthy (some la) && pyTruthy (some lo) && pyTruthy (some ra)) = true := by
    rw [pyTruthy_some la hla, pyTruthy_some lo hlo, pyTruthy_some ra hra]
    rfl
  rw [main, if_pos hc]
  simp only [Option.getD_some]
  cases hp : parsePyFloat ra <;> rfl

/-- Witness for C9: a below-threshold simulation still publishes first. -/
theorem C9_sim_publishes_first_witness :
    (main (some "1") (some "2") (some "50") [] .timeout).trace.head? =
      some .publishSim :=
  C9_sim_publishes_first "1" "2" "50" (by decide) (by decide) (by decide) [] .timeout

/-- C10: in simulation mode, an unparsable simulated radiation string
makes `float(simulate_radiation)` raise `ValueError` at the threshold
comparison of line 150, after the simulation message has already been
posted: the run produces no decision and its trace is exactly the
simulation post. -/
theorem C10_sim_unparsable_raises (la lo ra : String) (hla : la ≠ "") (hlo : lo ≠ "")
    (hra : ra ≠ "") (hparse : parsePyFloat ra = none)
    (events : List UsgsEvent) (resp : SafecastResponse) :
    (main (some la) (some lo) (some ra) events resp).outcome = .error .valueError ∧
    (main (some la) (some lo) (some ra) events resp).trace = [.publishSim] := by
  have hc : (pyTruthy (some la) && pyTruthy (some lo) && pyTruthy (some ra)) = true := by
    rw [pyTruthy_some la hla, pyTruthy_some lo hlo, pyTruthy_some ra hra]
    rfl
  have hmain : main (some la) (some lo) (some ra) events resp =
      ⟨[.publishSim], .error .valueError⟩ := by
    rw [main, if_pos hc]
    simp only [Option.getD_some]
    rw [hparse]
  exact ⟨by rw [hmain], by rw [hmain]⟩

/-- Witness for C10 at the unparsable string "abc". -/
theorem C10_sim_unparsable_raises_witness :
    (main (some "1") (some "2") (some "abc") [] .timeout).outcome = .error .valueError ∧
    (main (some "1") (some "2") (some "abc") [] .timeout).trace = [.publishSim] :=
  C10_sim_unparsable_raises "1" "2" "abc" (by decide) (by decide) (by decide) (by decide)
    [] .timeout

end RadSeis
